import Mathlib

/-! Verification development for the HCI paper-analysis web application
(`src/hci_agent_app.py`). Python strings are modelled as `List Char`
(one entry per Unicode code point), written `Str` below. Python's
`str.find` (returning `-1` on failure), slicing with possibly negative
indices, `str.strip`, `str.split('\n')` and `"\n".join` are modelled
explicitly, so that the section-splitting loop, the content formatter,
the PDF-text extractor and the download route can be stated and proved
about faithfully. -/

/-- Python strings, modelled as lists of code points. -/
abbrev Str := List Char

/-- The ASCII whitespace characters recognised by Python's `str.strip()`
(Python also strips other Unicode whitespace; the strings manipulated by
the program only involve these). -/
def isPySpace (c : Char) : Bool :=
  c = ' ' || c = '\t' || c = '\n' || c = '\r' || c = '\x0b' || c = '\x0c'

/-- Python `s.strip()`: remove leading and trailing whitespace. -/
def pyStrip (s : Str) : Str :=
  ((s.dropWhile isPySpace).reverse.dropWhile isPySpace).reverse

/-- Python `s.split('\n')`: split at every newline, keeping empty pieces;
`"".split('\n') == [""]`. -/
def splitNL : Str → List Str
  | [] => [[]]
  | c :: rest =>
    if c = '\n' then [] :: splitNL rest
    else
      match splitNL rest with
      | [] => [[c]]
      | h :: t => (c :: h) :: t

/-- Python `"\n".join(pieces)`. -/
def joinNL : List Str → Str
  | [] => []
  | [y] => y
  | y :: ys => y ++ '\n' :: joinNL ys

/-- Helper for `findNat`: first position `≥ k` (in the original string) at
which `pat` occurs, scanning the remaining suffix. -/
def findNatAux (pat : Str) : Str → Nat → Option Nat
  | [], k => if pat.isPrefixOf ([] : Str) then some k else none
  | c :: rest, k =>
    if pat.isPrefixOf (c :: rest) then some k else findNatAux pat rest (k + 1)

/-- First index at which `pat` occurs as a substring of `s` (from the left),
or `none`. -/
def findNat (s pat : Str) : Option Nat :=
  findNatAux pat s 0

/-- Python `s.find(pat)`: the first occurrence index, or `-1` when absent. -/
def pyFind (s pat : Str) : Int :=
  match findNat s pat with
  | some k => (k : Int)
  | none => -1

/-- Normalise a Python slice bound for a string of length `n`: negative
indices count from the end (clamped at `0`), positive ones are clamped
at `n`. -/
def pyIdx (n : Nat) (i : Int) : Nat :=
  if i < 0 then ((n : Int) + i).toNat else min i.toNat n

/-- Python `s[a:b]` with Python's index normalisation. -/
def pySlice (s : Str) (a b : Int) : Str :=
  (s.take (pyIdx s.length b)).drop (pyIdx s.length a)

/-- The contiguous segment of `s` from index `a` (inclusive) to `b`
(exclusive), for ordinary `Nat` bounds. -/
def sliceN (s : Str) (a b : Nat) : Str :=
  (s.take b).drop a

/-- Python `str(n)` for a natural number. -/
def pyStr (n : Nat) : Str :=
  (Nat.repr n).data

/-- The fixed ordered list of the 11 section names
(`SECTIONS` at lines 16-18 of `src/hci_agent_app.py`). -/
def SECTIONS : List Str :=
  [ "TL;DR".data, "Analogy".data, "Worked Example".data, "Dataset".data,
    "Modality".data, "Problem Statement".data, "Methodology".data,
    "Key Findings".data, "Research Gap".data, "Future Directions".data,
    "What Should You Read Yourself?".data ]

/-- The heading marker `f"{idx}) {section}"` built at line 190. -/
def mkMarker (idx : Nat) (sect : Str) : Str :=
  pyStr idx ++ ") ".data ++ sect

/-- The sentinel stored when a heading marker is absent (line 194). -/
def sentinelNotFound : Str :=
  "⚠ Section not found in analysis".data

/-- Test of line 153: `any(line.startswith(str(i)+")") for i in range(12))`. -/
def isNumberedLine (l : Str) : Bool :=
  (List.range 12).any fun i => (pyStr i ++ [')']).isPrefixOf l

/-- Per-line classification of `format_section_content` (lines 149-156):
bullet lines become `<li>`, numbered lines `<h4>`, other non-blank lines
`<p>`, and blank lines are dropped (`none`). -/
def formatLine (line : Str) : Option Str :=
  let l := pyStrip line
  if (['•']).isPrefixOf l || (['-']).isPrefixOf l then
    some ("<li>".data ++ pyStrip (l.drop 1) ++ "</li>".data)
  else if !l.isEmpty && isNumberedLine l then
    some ("<h4>".data ++ l ++ "</h4>".data)
  else if !l.isEmpty then
    some ("<p>".data ++ l ++ "</p>".data)
  else none

/-- Model of `format_section_content` (lines 142-158): remove every `*`, split into
lines, classify each line, and rejoin with newlines. -/
def format_section_content (content : Str) : Str :=
  joinNL ((splitNL (content.filter fun c => c != '*')).filterMap formatLine)

/-- The slicing step of the splitter loop (lines 190-198): find the marker
`f"{idx}) {sect}"`; `none` when `find` returns `-1`; otherwise slice from
just after the marker to `full.find(f"{idx+1})")` (for a non-last index)
or to the end of the text (for the last index), and strip. Note that for
a non-last index the loop always uses the result of `find` on the bare
`f"{idx+1})"` string, searched from the start of `full`, as the slice
end, including when that `find` returns `-1`. -/
def sectionContentRaw (full : Str) (idx : Nat) (sect : Str) : Option Str :=
  let marker := mkMarker idx sect
  let start := pyFind full marker
  if start = -1 then none
  else
    let stop : Int :=
      if idx + 1 < SECTIONS.length then pyFind full (pyStr (idx + 1) ++ [')'])
      else (full.length : Int)
    some (pyStrip (pySlice full (start + (marker.length : Int)) stop))

/-- The `sections_data` mapping built by the loop at lines 188-199: one
entry per section, in `SECTIONS` order; the not-found sentinel when the
marker is absent, otherwise the formatted sliced content. -/
def sectionsData (full : Str) : List (Str × Str) :=
  SECTIONS.enum.map fun p =>
    (p.2, match sectionContentRaw full p.1 p.2 with
          | none => sentinelNotFound
          | some content => format_section_content content)

/-- Model of `extract_pdf_text` (lines 109-120). The PyPDF2 interaction is
black-boxed as an `Except`: `Except.error e` models any exception raised
while opening the document or extracting a page (with message `e`),
`Except.ok pages` the per-page extracted texts of a successfully read
document. The loop concatenates the first `maxPages` page texts, each
followed by a newline; a blank result is replaced by the no-text
sentinel, and an exception is converted to the failure sentinel carrying
the caught message. -/
def extract_pdf_text (doc : Except Str (List Str)) (maxPages : Nat) : Str :=
  match doc with
  | Except.error e => "⚠ Failed to extract text from PDF: ".data ++ e
  | Except.ok pages =>
    let text := (pages.take maxPages).foldr (fun pg acc => pg ++ '\n' :: acc) []
    if !(pyStrip text).isEmpty then text else "⚠ No text extracted from PDF".data

/-- The constant prompt template `HCI_PROMPT_TEMPLATE` (lines 34-106),
transcribed verbatim (the four `{...}` placeholders included as literal
text, as in the Python source before `.format` substitution). -/
def HCI_PROMPT_TEMPLATE : Str :=
  "\nROLE\nYou are an expert simpliier of HCI researcher: curious, innovation-focused, and great at explaining theory to non-experts without jargon. \nYou must turn dense HCI/theory papers into clear, teachable insights.\nYour goal is to translate dense HCI papers into clear, actionable insights that anyone can understand.\n\nINPUT PAPER\nTitle: {title}\nAuthors/Year: {authors}\nAbstract (from PDF): {abstract}\nNotes/Audience: {notes}\n\nMISSION\nBreak down this paper into plain language while maintaining technical accuracy. Assume the reader has basic knowledge of HCI concepts but no specialized jargon.\nSo, Produce a concise, structured breakdown that anyone can understand, while thinking like an HCI researcher who hunts for novelty and real-world impact. If information is missing, write \"Not reported.\" Avoid speculation unless explicitly flagged.\n\nOUTPUT RULES\n- Simple language; define terms on first use.\n- Use numbered headings exactly as in the template.\n- Mark any weak evidence, assumptions, or speculative claims with ⚠ and a one-line reason.\n- If you infer, say \"(Inference)\" and explain why.\n- Do not invent datasets, numbers, or study details.\n\nTEMPLATE\n0) TL;DR\n   • What the paper is really about + the core contribution in plain English.\n\n1) Analogy\n   • One vivid everyday analogy that maps the paper's idea to a familiar scenario.\n\n2) Worked Example (Concrete Walk-through)\n   • A short step-by-step user story example showing how the idea or system would be used in practice.\n\n3) Dataset\n   • Is there a dataset? Yes/No.\n   • If Yes: name, size, source, key variables/labels, licensing, collection method, limits/biases ⚠.\n   • If No: say what artifacts they used instead (e.g., formal model, prototype, design probes, simulated data), and how evaluation was done (if any).\n\n4) Modality\n   • Inputs (e.g., touch, speech, gaze, sensors, logs, questionnaires, or any other).\n   • Outputs/representations (e.g., visualization, haptics, AR, text or any other).\n   • Context (device/platform/setting).\n\n5) Problem Statement\n   • The user/stakeholder problem and why current solutions are insufficient.\n\n6) Methodology\n   • Core approach (theory/model/system/design method).\n   • Pipeline or steps (bullet list).\n   • Study/eval (if any): study type, N, tasks/measures, analysis. Mark any under-powered or non-generalizable aspects ⚠.\n\n7) Key Findings\n   • 3–6 bullets of the most decision-relevant results/claims.\n   • Include effect sizes/quant where reported; else \"qualitative claim\" ⚠.\n\n8) Research Gap Addressed\n   • What gap in prior work this paper targets (be specific).\n   • What gap remains unresolved after this paper ⚠.\n\n9) Future Directions / Scope\n   • Near-term: concrete, feasible next steps (data, tooling, studies).\n   • Mid/long-term: visionary directions and dependencies.\n   • Risks/ethical concerns/validity threats ⚠ + how to mitigate.\n\n10) What Should You Read Yourself?\n    • Yes/No + Reason.\n    • If Yes: list 2–3 specific sections to read (e.g., \"Section 3.2 Formalization,\" \"Appendix B study protocol\") and why (e.g., critical proofs, design rationale, subtle limitations).\n    • If No: state why the summary suffices (e.g., purely conceptual, high-level).\n\n11) Quick References\n    • One-line citation (venue/year) and page/figure numbers for any crucial claims, if available.\n\n".data

/-- Leading heading number of a line: `some n` when the line starts with
the decimal digits of `n` immediately followed by a closing parenthesis
(at least one digit), else `none`. Used to state which numbered headings
the template contains. -/
def headingNum (l : Str) : Option Nat :=
  let ds := l.takeWhile fun c => c.isDigit
  if ds.isEmpty then none
  else if (l.drop ds.length).take 1 = [')'] then
    some (ds.foldl (fun a c => 10 * a + (c.toNat - 48)) 0)
  else none

/-- Python `c.isalnum()` as used on the route's title argument
(line 218). Python's version is Unicode-aware; it is modelled on the
ASCII range, where the two agree, and in particular agrees that `:`,
`/`, `\` and every other ASCII path or punctuation character is not
alphanumeric. -/
def pyIsAlnum (c : Char) : Bool :=
  c.isAlpha || c.isDigit

/-- The safe-filename computation of `download_pdf` (line 218):
`"".join(c for c in title if c.isalnum() or c in " _-")`. -/
def safeTitleOf (title : Str) : Str :=
  title.filter fun c => pyIsAlnum c || c = ' ' || c = '_' || c = '-'

/-- The names bound at module level in `src/hci_agent_app.py`: the
imports of lines 1-7 and the module-level definitions. `datetime` and
`re` are not among them, so evaluating those names inside
`download_pdf` raises a `NameError`. -/
def moduleTopLevelNames : List String :=
  [ "os", "logging", "Flask", "render_template", "request", "send_file",
    "jsonify", "genai", "PdfReader", "tempfile", "FPDF", "app", "logger",
    "SECTIONS", "create_gemini_client", "HCI_PROMPT_TEMPLATE",
    "extract_pdf_text", "analyze_paper", "format_section_content",
    "index", "download_pdf", "request_entity_too_large" ]

/-- Python name resolution inside the module: referencing a name that is
neither local nor bound at module level (nor a builtin used by the file)
raises `NameError: name '...' is not defined`. -/
def lookupName (n : String) : Except Str Unit :=
  if moduleTopLevelNames.contains n then Except.ok ()
  else Except.error (("NameError: name '" ++ n ++ "' is not defined").data)

/-- Length through the closing `>` of the shortest match of the regex
fragment `[^<]+?>` at the front of the list, scanning like Python's
non-greedy `re` engine: at least one non-`<` character, then the first
`>`. -/
def tagEnd : Str → Nat → Option Nat
  | [], _ => none
  | c :: cs, n =>
    if c = '<' then none
    else if 1 ≤ n ∧ c = '>' then some (n + 1)
    else tagEnd cs (n + 1)

/-- Model of `re.sub('<[^<]+?>', '', content)` (line 252): delete every match of
the non-greedy tag pattern, scanning left to right. -/
def stripTags : Str → Str
  | [] => []
  | c :: rest =>
    if c = '<' then
      match tagEnd rest 0 with
      | some k => stripTags (rest.drop k)
      | none => '<' :: stripTags rest
    else c :: stripTags rest
termination_by s => s.length
decreasing_by
  · simpa using Nat.lt_succ_of_le (Nat.sub_le rest.length k)
  · simp
  · simp

/-- The report document assembled by `download_pdf` (lines 221-257):
the output file name, the sanitized title shown in the header, the
metadata date line, one `(section, plain text)` entry per section, and
the attachment name passed to `send_file`. -/
structure Report where
  filename : Str
  headerTitle : Str
  dateLine : Str
  sections : List (Str × Str)
  downloadName : Str
  deriving Repr, DecidableEq

/-- The `GET /download_pdf/<title>` handler (lines 215-257). `args`
models `request.args.get(section, "")`; `now` stands for the text
`datetime.now().strftime('%Y-%m-%d')` would produce if the name
`datetime` resolved. The handler computes the safe title and file name,
then at line 239 evaluates the module-unbound name `datetime` (and, for
each section at line 252, the module-unbound name `re`); a failed lookup
aborts the handler with the raised `NameError`. -/
def download_pdf (title : Str) (args : Str → Str) (now : Str) :
    Except Str Report := do
  let safe_title := safeTitleOf title
  let pdf_file := safe_title ++ ".pdf".data
  let _ ← lookupName "datetime"
  let dateLine := "Date: ".data ++ now
  let secs ← SECTIONS.mapM fun sect => do
    let content := args sect
    let _ ← lookupName "re"
    pure (sect, stripTags content)
  pure { filename := pdf_file
         headerTitle := safe_title
         dateLine := dateLine
         sections := secs
         downloadName := safe_title ++ "_analysis.pdf".data }

/-- Follows the spec's words (for comparison with `sectionContentRaw`):
the content the spec assigns to section `idx` is the text strictly
between the end of marker `idx` and the start of the first occurrence of
the full marker `idx+1` (end of text for the last section), trimmed of
surrounding whitespace. -/
def specExpectedContent (full : Str) (idx : Nat) : Option Str :=
  match findNat full (mkMarker idx (SECTIONS.getD idx [])) with
  | none => none
  | some a =>
    let e := a + (mkMarker idx (SECTIONS.getD idx [])).length
    if idx + 1 < SECTIONS.length then
      match findNat full (mkMarker (idx + 1) (SECTIONS.getD (idx + 1) [])) with
      | none => none
      | some b => some (pyStrip (sliceN full e b))
    else
      some (pyStrip (sliceN full e full.length))

/-- Decidable well-formedness check used to state claims about responses
in which all 11 markers are present in order: every marker is found and
each marker starts no earlier than the end of the previous one. -/
def markersPresentInOrder (full : Str) : Bool :=
  (List.range (SECTIONS.length - 1)).all fun i =>
    match findNat full (mkMarker i (SECTIONS.getD i [])),
          findNat full (mkMarker (i + 1) (SECTIONS.getD (i + 1) [])) with
    | some a, some b => decide (a + (mkMarker i (SECTIONS.getD i [])).length ≤ b)
    | _, _ => false

/-- Number of positions of `s` at which `pat` occurs as a substring. -/
def countOccur (s pat : Str) : Nat :=
  ((List.range (s.length + 1)).filter fun k => pat.isPrefixOf (s.drop k)).length

/-- A line is plain paragraph text for the formatter when, after
stripping, it is non-blank, carries no `•` or `-` bullet prefix and no
leading `<digit>)` numbering. -/
def plainLine (line : Str) : Bool :=
  let l := pyStrip line
  !l.isEmpty && !(['•']).isPrefixOf l && !(['-']).isPrefixOf l && !isNumberedLine l

/-- Paragraph markup produced by the formatter for a plain line. -/
def wrapP (l : Str) : Str :=
  '<' :: 'p' :: '>' :: (l ++ ['<', '/', 'p', '>'])

set_option maxRecDepth 1000000

/-! Basic facts about the `find` and slice models. -/

theorem findNatAux_some {pat s : Str} {k j : Nat}
    (h : findNatAux pat s k = some j) :
    k ≤ j ∧ j - k ≤ s.length ∧ pat.isPrefixOf (s.drop (j - k)) := by
  induction s generalizing k with
  | nil =>
    unfold findNatAux at h
    by_cases hp : pat.isPrefixOf ([] : Str) <;> simp [hp] at h
    subst h
    simpa using hp
  | cons c rest ih =>
    unfold findNatAux at h
    by_cases hp : pat.isPrefixOf (c :: rest)
    · simp [hp] at h
      subst h
      simpa using hp
    · simp [hp] at h
      obtain ⟨h1, h2, h3⟩ := ih h
      refine ⟨by omega, by simp; omega, ?_⟩
      have hjk : j - k = (j - (k + 1)) + 1 := by omega
      rw [hjk]
      simpa using h3

theorem findNat_some {s pat : Str} {j : Nat} (h : findNat s pat = some j) :
    j ≤ s.length ∧ j + pat.length ≤ s.length ∧ pat.isPrefixOf (s.drop j) := by
  obtain ⟨-, h2, h3⟩ := findNatAux_some h
  simp only [Nat.sub_zero] at h2 h3
  have hpre : pat <+: s.drop j := by
    rwa [← List.isPrefixOf_iff_prefix]
  have hlen : pat.length ≤ (s.drop j).length := hpre.length_le
  simp only [List.length_drop] at hlen
  exact ⟨h2, by omega, h3⟩

theorem pyFind_eq_neg_one_iff {s pat : Str} :
    pyFind s pat = -1 ↔ findNat s pat = none := by
  cases h : findNat s pat with
  | none => simp [pyFind, h]
  | some k =>
    simp only [pyFind, h]
    constructor
    · intro hk
      exact absurd hk (by omega)
    · intro hk
      exact absurd hk (by simp)

theorem drop_eq_marker_append {s pat : Str} {j : Nat}
    (h : pat.isPrefixOf (s.drop j)) :
    s.drop j = pat ++ s.drop (j + pat.length) := by
  obtain ⟨t, ht⟩ : pat <+: s.drop j := by rwa [← List.isPrefixOf_iff_prefix]
  have htt : s.drop (j + pat.length) = t := by
    have := List.drop_drop pat.length j s
    rw [← this, ← ht, List.drop_left]
  rw [htt, ht]

theorem drop_eq_slice_append (s : Str) {c b : Nat} (hcb : c ≤ b) :
    s.drop c = sliceN s c b ++ s.drop b := by
  conv_lhs => rw [← List.take_append_drop b s]
  rw [List.drop_append_eq_append_drop]
  by_cases hb : b ≤ s.length
  · simp [sliceN, List.length_take, Nat.min_eq_left hb,
      Nat.sub_eq_zero_of_le hcb]
  · have hnil : s.drop b = [] := List.drop_eq_nil_of_le (by omega)
    simp [sliceN, hnil]

theorem pySlice_natCast (s : Str) (a b : Nat) :
    pySlice s (a : Int) (b : Int) = sliceN s a b := by
  have hb : pyIdx s.length (b : Int) = min b s.length := by
    simp [pyIdx]
  have ha : pyIdx s.length (a : Int) = min a s.length := by
    simp [pyIdx]
  rw [pySlice, ha, hb, sliceN]
  have h1 : s.take (min b s.length) = s.take b := by
    rcases Nat.le_total b s.length with h | h
    · rw [Nat.min_eq_left h]
    · rw [Nat.min_eq_right h, List.take_length, List.take_of_length_le h]
  rw [h1]
  rcases Nat.le_total a s.length with h | h
  · rw [Nat.min_eq_left h]
  · rw [Nat.min_eq_right h]
    have hlb : (s.take b).length ≤ s.length := by
      simp only [List.length_take]
      omega
    rw [List.drop_eq_nil_of_le hlb, List.drop_eq_nil_of_le (by omega)]

theorem sliceN_to_length (s : Str) (e : Nat) :
    sliceN s e s.length = s.drop e := by
  rw [sliceN, List.take_length]

theorem SECTIONS_length : SECTIONS.length = 11 := rfl

/-- C1 (amended): for a response in which all 11 markers are present in
order and, for each non-last index, the first occurrence of the bare
string `f"{i+1})"` is exactly at the position of marker `i+1`, the
splitter produces exactly 11 entries, none of them the not-found
sentinel; the content of section `i` is the text strictly between the
end of marker `i` and the start of marker `i+1` (end of text for the
last section), trimmed of surrounding whitespace; and the slices are
non-overlapping and cover the full text between consecutive markers
(the text from marker `i` on decomposes as the marker, then exactly the
sliced text, then the text from marker `i+1` on). -/
theorem c1_splitter_slices_between_markers (full : Str) (p : Nat → Nat)
    (hfind : ∀ i, i < 11 → findNat full (mkMarker i (SECTIONS.getD i [])) = some (p i))
    (hbare : ∀ i, i < 10 → findNat full (pyStr (i + 1) ++ [')']) = some (p (i + 1)))
    (horder : ∀ i, i < 10 → p i + (mkMarker i (SECTIONS.getD i [])).length ≤ p (i + 1)) :
    (sectionsData full).length = SECTIONS.length ∧
    ∀ i, i < 11 →
      sectionContentRaw full i (SECTIONS.getD i []) =
        some (pyStrip (sliceN full (p i + (mkMarker i (SECTIONS.getD i [])).length)
          (if i < 10 then p (i + 1) else full.length))) ∧
      full.drop (p i) =
        mkMarker i (SECTIONS.getD i []) ++
          sliceN full (p i + (mkMarker i (SECTIONS.getD i [])).length)
            (if i < 10 then p (i + 1) else full.length) ++
          full.drop (if i < 10 then p (i + 1) else full.length) := by
  refine ⟨rfl, ?_⟩
  intro i hi
  have hm := hfind i hi
  obtain ⟨hple, hmle, hpre⟩ := findNat_some hm
  by_cases h10 : i < 10
  · have hb := hbare i h10
    have hm1 := hfind (i + 1) (by omega)
    obtain ⟨hp1le, -, -⟩ := findNat_some hm1
    have hord := horder i h10
    have hlt : i + 1 < SECTIONS.length := by rw [SECTIONS_length]; omega
    constructor
    · simp only [sectionContentRaw, pyFind, hm, hb, if_pos hlt, if_pos h10]
      rw [if_neg (by omega : ¬((p i : Nat) : Int) = -1)]
      rw [show ((p i : Nat) : Int) + ((mkMarker i (SECTIONS.getD i [])).length : Int)
            = ((p i + (mkMarker i (SECTIONS.getD i [])).length : Nat) : Int) by push_cast; ring]
      rw [pySlice_natCast]
    · rw [if_pos h10]
      calc full.drop (p i)
          = mkMarker i (SECTIONS.getD i []) ++
              full.drop (p i + (mkMarker i (SECTIONS.getD i [])).length) :=
            drop_eq_marker_append hpre
        _ = mkMarker i (SECTIONS.getD i []) ++
              (sliceN full (p i + (mkMarker i (SECTIONS.getD i [])).length) (p (i + 1)) ++
                full.drop (p (i + 1))) := by
            rw [← drop_eq_slice_append full hord]
        _ = mkMarker i (SECTIONS.getD i []) ++
              sliceN full (p i + (mkMarker i (SECTIONS.getD i [])).length) (p (i + 1)) ++
              full.drop (p (i + 1)) := by
            rw [List.append_assoc]
  · have hieq : i = 10 := by omega
    subst hieq
    have hlt : ¬(10 + 1 < SECTIONS.length) := by rw [SECTIONS_length]; omega
    constructor
    · simp only [sectionContentRaw, pyFind, hm, if_neg hlt]
      rw [if_neg (by omega : ¬((p 10 : Nat) : Int) = -1)]
      rw [show ((p 10 : Nat) : Int) + ((mkMarker 10 (SECTIONS.getD 10 [])).length : Int)
            = ((p 10 + (mkMarker 10 (SECTIONS.getD 10 [])).length : Nat) : Int) by push_cast; ring]
      rw [pySlice_natCast]
      rw [if_neg (by omega : ¬(10 < 10))]
    · rw [if_neg (by omega : ¬(10 < 10))]
      rw [sliceN_to_length, List.drop_eq_nil_of_le (Nat.le_refl _), List.append_nil]
      exact drop_eq_marker_append hpre

/-- A well-formed response: all 11 markers, in order, with no stray bare
`"{i})"` text, one-letter contents. -/
def responseClean : Str :=
  "0) TL;DR\nA\n1) Analogy\nB\n2) Worked Example\nC\n3) Dataset\nD\n4) Modality\nE\n5) Problem Statement\nF\n6) Methodology\nG\n7) Key Findings\nH\n8) Research Gap\nI\n9) Future Directions\nJ\n10) What Should You Read Yourself?\nK".data

/-- Marker positions of `responseClean`, read off with `findNat`. -/
def cleanPos : Nat → Nat :=
  fun i => (findNat responseClean (mkMarker i (SECTIONS.getD i []))).getD 0

theorem c1_splitter_slices_between_markers_witness :
    sectionContentRaw responseClean 0 (SECTIONS.getD 0 []) =
      some (pyStrip (sliceN responseClean
        (cleanPos 0 + (mkMarker 0 (SECTIONS.getD 0 [])).length)
        (if 0 < 10 then cleanPos 1 else responseClean.length))) ∧
    responseClean.drop (cleanPos 0) =
      mkMarker 0 (SECTIONS.getD 0 []) ++
        sliceN responseClean (cleanPos 0 + (mkMarker 0 (SECTIONS.getD 0 [])).length)
          (if 0 < 10 then cleanPos 1 else responseClean.length) ++
        responseClean.drop (if 0 < 10 then cleanPos 1 else responseClean.length) :=
  (c1_splitter_slices_between_markers responseClean cleanPos
    (by decide) (by decide) (by decide)).2 0 (by decide)

/-- A response with all 11 markers present in order, but whose section-0
body mentions `"1)"` before marker 1 occurs. -/
def responseStray : Str :=
  "0) TL;DR\nsee 1) below\n1) Analogy\nB\n2) Worked Example\nC\n3) Dataset\nD\n4) Modality\nE\n5) Problem Statement\nF\n6) Methodology\nG\n7) Key Findings\nH\n8) Research Gap\nI\n9) Future Directions\nJ\n10) What Should You Read Yourself?\nK".data

/-- C1 (counterexample): on `responseStray` all 11 markers are present in
order, yet the content stored for section 0 is `"see"`, not the trimmed
text strictly between the end of marker 0 and the start of marker 1
(`"see 1) below"`): the slice stops at the stray bare `"1)"`. -/
theorem c1_counterexample :
    markersPresentInOrder responseStray = true ∧
    sectionContentRaw responseStray 0 (SECTIONS.getD 0 []) = some "see".data ∧
    specExpectedContent responseStray 0 = some "see 1) below".data ∧
    sectionContentRaw responseStray 0 (SECTIONS.getD 0 []) ≠
      specExpectedContent responseStray 0 :=
  ⟨rfl, rfl, rfl, by decide⟩

/-- A response with all 11 markers exactly once and in order, preceded by
text mentioning the bare `"2)"`. -/
def responseEarlyBare : Str :=
  "see 2) intro\n0) TL;DR\nA\n1) Analogy\nB\n2) Worked Example\nC\n3) Dataset\nD\n4) Modality\nE\n5) Problem Statement\nF\n6) Methodology\nG\n7) Key Findings\nH\n8) Research Gap\nI\n9) Future Directions\nJ\n10) What Should You Read Yourself?\nK".data

/-- C10: for every found non-last marker, the splitter's end boundary is
`full.find(f"{idx+1})")` — the bare number-and-parenthesis string,
searched from the beginning of the whole response; consequently, on
`responseEarlyBare` (which contains all 11 markers exactly once and in
order, but a bare `"2)"` before marker 1) the stored content of
section 1 is the empty string instead of the text `"B"` between
markers 1 and 2. -/
theorem c10_end_boundary_is_bare_find_from_start :
    (∀ (full : Str) (idx : Nat) (sect : Str) (a : Nat),
        idx + 1 < SECTIONS.length →
        findNat full (mkMarker idx sect) = some a →
        sectionContentRaw full idx sect =
          some (pyStrip (pySlice full
            ((a : Int) + ((mkMarker idx sect).length : Int))
            (pyFind full (pyStr (idx + 1) ++ [')']))))) ∧
    markersPresentInOrder responseEarlyBare = true ∧
    ((List.range 11).all fun i =>
        countOccur responseEarlyBare (mkMarker i (SECTIONS.getD i [])) == 1) = true ∧
    (findNat responseEarlyBare (pyStr (1 + 1) ++ [')'])).getD responseEarlyBare.length <
      (findNat responseEarlyBare (mkMarker 1 (SECTIONS.getD 1 []))).getD 0 ∧
    sectionContentRaw responseEarlyBare 1 (SECTIONS.getD 1 []) = some [] ∧
    specExpectedContent responseEarlyBare 1 = some "B".data := by
  refine ⟨?_, rfl, rfl, by decide, rfl, rfl⟩
  intro full idx sect a hlt hfind
  have hpf : pyFind full (mkMarker idx sect) = (a : Int) := by
    simp [pyFind, hfind]
  simp only [sectionContentRaw, hpf, if_pos hlt]
  rw [if_neg (by omega : ¬((a : Nat) : Int) = -1)]

theorem c10_end_boundary_is_bare_find_from_start_witness :
    sectionContentRaw responseEarlyBare 0 (SECTIONS.getD 0 []) =
      some (pyStrip (pySlice responseEarlyBare
        ((13 : Int) + ((mkMarker 0 (SECTIONS.getD 0 [])).length : Int))
        (pyFind responseEarlyBare (pyStr (0 + 1) ++ [')'])))) :=
  c10_end_boundary_is_bare_find_from_start.1 responseEarlyBare 0 (SECTIONS.getD 0 []) 13
    (by decide) (by decide)

/-- C2 evaluated at its failing input: in
`"0) TL;DR\nAlpha\nBeta"` marker 1 (`"1) Analogy"`) is absent and the
bare `"1)"` is absent too, so `find` returns `-1` and the `-1` is used
as the slice end: section 0 receives `"Alpha\nBet"` — its final
character is silently dropped — instead of the unaffected content
`"Alpha\nBeta"`; section 1 itself receives the not-found sentinel. -/
theorem c2_missing_marker_drops_last_char :
    pyFind "0) TL;DR\nAlpha\nBeta".data (mkMarker 1 (SECTIONS.getD 1 [])) = -1 ∧
    pyFind "0) TL;DR\nAlpha\nBeta".data (pyStr 1 ++ [')']) = -1 ∧
    sectionContentRaw "0) TL;DR\nAlpha\nBeta".data 0 (SECTIONS.getD 0 []) =
      some "Alpha\nBet".data ∧
    List.lookup (SECTIONS.getD 1 []) (sectionsData "0) TL;DR\nAlpha\nBeta".data) =
      some sentinelNotFound ∧
    some "Alpha\nBet".data ≠ some "Alpha\nBeta".data :=
  ⟨rfl, rfl, rfl, rfl, by decide⟩

/-- The end-to-end scenario response from the spec, completed so that all
11 markers occur in order. -/
def responseScenario : Str :=
  "0) TL;DR\nShort.\n1) Analogy\nLike X.\n2) Worked Example\nC\n3) Dataset\nD\n4) Modality\nE\n5) Problem Statement\nF\n6) Methodology\nG\n7) Key Findings\nH\n8) Research Gap\nI\n9) Future Directions\nJ\n10) What Should You Read Yourself?\nK".data

/-- C3 (counterexample): on the scenario response the mapping stores the
formatted value `"<p>Short.</p>"` for `TL;DR`, not `"Short."`: the
pipeline formats each sliced section before storing it. -/
theorem c3_counterexample :
    markersPresentInOrder responseScenario = true ∧
    List.lookup "TL;DR".data (sectionsData responseScenario) =
      some "<p>Short.</p>".data ∧
    some "<p>Short.</p>".data ≠ some "Short.".data :=
  ⟨rfl, rfl, by decide⟩

/-- C3 (amended): on the scenario response the trimmed text sliced for
`TL;DR` is `"Short."` and for `Analogy` is `"Like X."`; the mapping then
stores the formatted values `"<p>Short.</p>"` and `"<p>Like X.</p>"`,
the formatter wrapping each plain line in a paragraph tag. -/
theorem c3_scenario_mapping :
    sectionContentRaw responseScenario 0 (SECTIONS.getD 0 []) = some "Short.".data ∧
    sectionContentRaw responseScenario 1 (SECTIONS.getD 1 []) = some "Like X.".data ∧
    List.lookup "TL;DR".data (sectionsData responseScenario) =
      some (format_section_content "Short.".data) ∧
    List.lookup "Analogy".data (sectionsData responseScenario) =
      some (format_section_content "Like X.".data) ∧
    format_section_content "Short.".data = "<p>Short.</p>".data ∧
    format_section_content "Like X.".data = "<p>Like X.</p>".data :=
  ⟨rfl, rfl, rfl, rfl, rfl, rfl⟩

theorem sectionsData_getD (full : Str) (idx : Nat) (h : idx < SECTIONS.length) :
    (sectionsData full).getD idx ([], []) =
      (SECTIONS.getD idx [],
        match sectionContentRaw full idx (SECTIONS.getD idx []) with
        | none => sentinelNotFound
        | some content => format_section_content content) := by
  rw [SECTIONS_length] at h
  interval_cases idx <;> rfl

/-- C4: for every raw response the mapping has exactly one entry per
section name, in the fixed `SECTIONS` order (its keys, in order, are
exactly `SECTIONS`, which has no duplicates), and an index whose marker
is absent (`find` returns `-1`) is assigned the not-found sentinel. -/
theorem c4_section_map_complete (full : Str) :
    (sectionsData full).map Prod.fst = SECTIONS ∧
    SECTIONS.Nodup ∧
    (sectionsData full).length = SECTIONS.length ∧
    ∀ idx, idx < SECTIONS.length →
      pyFind full (mkMarker idx (SECTIONS.getD idx [])) = -1 →
      (sectionsData full).getD idx ([], []) =
        (SECTIONS.getD idx [], sentinelNotFound) := by
  refine ⟨rfl, by decide, rfl, ?_⟩
  intro idx h hneg
  have hsec : sectionContentRaw full idx (SECTIONS.getD idx []) = none := by
    simp only [sectionContentRaw, hneg]
    simp
  rw [sectionsData_getD full idx h, hsec]

theorem c4_section_map_complete_witness :
    (sectionsData "hello".data).getD 5 ([], []) =
      (SECTIONS.getD 5 [], sentinelNotFound) :=
  (c4_section_map_complete "hello".data).2.2.2 5 (by decide) (by decide)

/-- C5: `extract_pdf_text` is a total function of the modelled document
and never returns the empty string: a raised extraction error is caught
and converted to the failure sentinel carrying the message, a document
whose read pages concatenate to blank text (in particular a 0-page
document) yields the no-text sentinel, and otherwise the non-blank text
itself is returned. -/
theorem c5_extract_never_empty (doc : Except Str (List Str)) (maxPages : Nat) :
    extract_pdf_text doc maxPages ≠ [] ∧
    (∀ e, doc = Except.error e →
      extract_pdf_text doc maxPages = "⚠ Failed to extract text from PDF: ".data ++ e) ∧
    (doc = Except.ok [] →
      extract_pdf_text doc maxPages = "⚠ No text extracted from PDF".data) := by
  refine ⟨?_, ?_, ?_⟩
  · cases doc with
    | error e => simp [extract_pdf_text]
    | ok pages =>
      simp only [extract_pdf_text]
      split
      next h =>
        intro hnil
        rw [hnil] at h
        simp [pyStrip] at h
      next =>
        simp
  · intro e he
    subst he
    rfl
  · intro he
    subst he
    simp [extract_pdf_text, pyStrip]

theorem c5_extract_never_empty_witness :
    extract_pdf_text (Except.ok []) 5 = "⚠ No text extracted from PDF".data :=
  (c5_extract_never_empty (Except.ok []) 5).2.2 rfl

/-- C8 evaluated at its failing input: for every title, query arguments
and clock reading, `download_pdf` aborts with the `NameError` raised at
the metadata date line, because the name `datetime` is never imported by
the module; no report document is ever produced. -/
theorem c8_download_pdf_raises_nameerror (title : Str) (args : Str → Str) (now : Str) :
    download_pdf title args now =
      Except.error "NameError: name 'datetime' is not defined".data := rfl

/-- C9: the sanitized filename base keeps exactly the characters of the
title that are alphanumeric, space, underscore or hyphen — every
character of the result satisfies that test, the result is a
subsequence of the title (characters are removed, never replaced or
added) — and `"My Paper: Draft/2"` yields exactly `"My Paper Draft2"`. -/
theorem c9_safe_filename (title : Str) :
    (∀ c, c ∈ safeTitleOf title →
      pyIsAlnum c = true ∨ c = ' ' ∨ c = '_' ∨ c = '-') ∧
    List.Sublist (safeTitleOf title) title ∧
    safeTitleOf "My Paper: Draft/2".data = "My Paper Draft2".data := by
  refine ⟨?_, List.filter_sublist title, by decide⟩
  intro c hc
  rw [safeTitleOf, List.mem_filter] at hc
  obtain ⟨-, hp⟩ := hc
  simp only [Bool.or_eq_true, decide_eq_true_eq] at hp
  tauto

theorem c9_safe_filename_witness :
    pyIsAlnum 'M' = true ∨ 'M' = ' ' ∨ 'M' = '_' ∨ 'M' = '-' :=
  (c9_safe_filename "My Paper: Draft/2".data).1 'M' (by decide)

/-- C6 (counterexample): the template's numbered headings are not
exactly the `SECTIONS` entries 0-10: the template contains the heading
line `"11) Quick References"` — a numbered heading outside 0-10 — and
contains no line equal to `"2) Worked Example"` (its heading 2 is the
longer `"2) Worked Example (Concrete Walk-through)"`). -/
theorem c6_counterexample :
    "11) Quick References".data ∈ splitNL HCI_PROMPT_TEMPLATE ∧
    headingNum "11) Quick References".data = some 11 ∧
    "2) Worked Example".data ∉ splitNL HCI_PROMPT_TEMPLATE :=
  ⟨by decide, rfl, by decide⟩

/-- C6 (amended): for each `i` in 0-10 the template contains a heading
line beginning with the splitter's marker `f"{i}) {SECTIONS[i]}"` (for
`i` = 2, 8, 9 the heading text continues beyond the section name), so
every marker the splitter searches for occurs in the requested output
format; but the numbered headings of the template are exactly 0 through
11, in order — including `"11) Quick References"`, which lies outside
0-10 and is not in `SECTIONS`. -/
theorem c6_template_headings :
    ((List.range 11).all fun i =>
        (splitNL HCI_PROMPT_TEMPLATE).any fun l =>
          (mkMarker i (SECTIONS.getD i [])).isPrefixOf l) = true ∧
    "2) Worked Example (Concrete Walk-through)".data ∈ splitNL HCI_PROMPT_TEMPLATE ∧
    "8) Research Gap Addressed".data ∈ splitNL HCI_PROMPT_TEMPLATE ∧
    "9) Future Directions / Scope".data ∈ splitNL HCI_PROMPT_TEMPLATE ∧
    "11) Quick References".data ∈ splitNL HCI_PROMPT_TEMPLATE ∧
    (splitNL HCI_PROMPT_TEMPLATE).filterMap headingNum =
      [0, 1, 2, 3, 4, 5, 6, 7, 8, 9, 10, 11] :=
  ⟨rfl, by decide, by decide, by decide, by decide, rfl⟩

/-! Facts about line splitting, joining and stripping, used to settle the
formatter's behaviour on plain paragraph text. -/

theorem splitNL_ne_nil (s : Str) : splitNL s ≠ [] := by
  cases s with
  | nil => simp [splitNL]
  | cons c rest =>
    simp only [splitNL]
    split
    · simp
    · split <;> simp

theorem mem_splitNL_no_newline {s l : Str} (h : l ∈ splitNL s) : '\n' ∉ l := by
  induction s generalizing l with
  | nil =>
    simp [splitNL] at h
    simp [h]
  | cons c rest ih =>
    simp only [splitNL] at h
    split at h
    · rcases List.mem_cons.mp h with h1 | h1
      · simp [h1]
      · exact ih h1
    · next hc =>
      cases hm : splitNL rest with
      | nil => exact absurd hm (splitNL_ne_nil rest)
      | cons hd tl =>
        rw [hm] at h
        rcases List.mem_cons.mp h with h1 | h1
        · subst h1
          intro hmem
          rcases List.mem_cons.mp hmem with h2 | h2
          · exact hc h2.symm
          · exact ih (hm ▸ List.mem_cons_self hd tl) h2
        · exact ih (hm ▸ List.mem_cons_of_mem hd h1)

theorem mem_of_mem_splitNL {s l : Str} {c : Char} (hl : l ∈ splitNL s)
    (hc : c ∈ l) : c ∈ s := by
  induction s generalizing l with
  | nil =>
    simp [splitNL] at hl
    subst hl
    simp at hc
  | cons a rest ih =>
    simp only [splitNL] at hl
    split at hl
    · rcases List.mem_cons.mp hl with h1 | h1
      · subst h1
        simp at hc
      · exact List.mem_cons_of_mem a (ih h1 hc)
    · cases hm : splitNL rest with
      | nil => exact absurd hm (splitNL_ne_nil rest)
      | cons hd tl =>
        rw [hm] at hl
        rcases List.mem_cons.mp hl with h1 | h1
        · subst h1
          rcases List.mem_cons.mp hc with h2 | h2
          · simp [h2]
          · exact List.mem_cons_of_mem a (ih (hm ▸ List.mem_cons_self hd tl) h2)
        · exact List.mem_cons_of_mem a (ih (hm ▸ List.mem_cons_of_mem hd h1) hc)

theorem splitNL_eq_single {s : Str} (h : '\n' ∉ s) : splitNL s = [s] := by
  induction s with
  | nil => rfl
  | cons c rest ih =>
    have hc : ¬(c = '\n') := fun he => h (he ▸ List.mem_cons_self c rest)
    have hrest : '\n' ∉ rest := fun hm => h (List.mem_cons_of_mem c hm)
    simp only [splitNL, if_neg hc, ih hrest]

theorem splitNL_append_newline {y : Str} (z : Str) (hy : '\n' ∉ y) :
    splitNL (y ++ '\n' :: z) = y :: splitNL z := by
  induction y with
  | nil => simp [splitNL]
  | cons c y' ih =>
    have hc : ¬(c = '\n') := fun he => hy (he ▸ List.mem_cons_self c y')
    have hy' : '\n' ∉ y' := fun hm => hy (List.mem_cons_of_mem c hm)
    simp only [List.cons_append, splitNL, if_neg hc, List.append_eq, ih hy']

theorem splitNL_joinNL {ys : List Str} (hne : ys ≠ [])
    (h : ∀ y ∈ ys, '\n' ∉ y) : splitNL (joinNL ys) = ys := by
  induction ys with
  | nil => exact absurd rfl hne
  | cons y t ih =>
    cases t with
    | nil => exact splitNL_eq_single (h y (List.mem_cons_self y []))
    | cons z t' =>
      have hstep : joinNL (y :: z :: t') = y ++ '\n' :: joinNL (z :: t') := rfl
      rw [hstep, splitNL_append_newline _ (h y (List.mem_cons_self _ _)),
        ih (by simp) (fun w hw => h w (List.mem_cons_of_mem y hw))]

theorem mem_joinNL {ys : List Str} {c : Char} (h : c ∈ joinNL ys) :
    c = '\n' ∨ ∃ y ∈ ys, c ∈ y := by
  induction ys with
  | nil => simp [joinNL] at h
  | cons y t ih =>
    cases t with
    | nil =>
      right
      exact ⟨y, List.mem_cons_self y [], h⟩
    | cons z t' =>
      have hstep : joinNL (y :: z :: t') = y ++ '\n' :: joinNL (z :: t') := rfl
      rw [hstep] at h
      rcases List.mem_append.mp h with h1 | h1
      · exact Or.inr ⟨y, List.mem_cons_self _ _, h1⟩
      · rcases List.mem_cons.mp h1 with h2 | h2
        · exact Or.inl h2
        · rcases ih h2 with h3 | ⟨w, hw, hcw⟩
          · exact Or.inl h3
          · exact Or.inr ⟨w, List.mem_cons_of_mem y hw, hcw⟩

theorem mem_of_mem_pyStrip {s : Str} {c : Char} (h : c ∈ pyStrip s) : c ∈ s := by
  unfold pyStrip at h
  have h1 := List.mem_reverse.mp h
  have h2 := (List.dropWhile_sublist isPySpace).subset h1
  have h3 := List.mem_reverse.mp h2
  exact (List.dropWhile_sublist isPySpace).subset h3

theorem pyStrip_of_ends (c d : Char) (m : Str) (hc : isPySpace c = false)
    (hd : isPySpace d = false) : pyStrip (c :: (m ++ [d])) = c :: (m ++ [d]) := by
  simp [pyStrip, hc, hd]

theorem wrapP_length (m : Str) : (wrapP m).length = m.length + 7 := by
  simp [wrapP]

theorem pyStrip_wrapP (m : Str) : pyStrip (wrapP m) = wrapP m := by
  have heq : wrapP m = '<' :: (('p' :: '>' :: (m ++ ['<', '/', 'p'])) ++ ['>']) := by
    simp [wrapP]
  rw [heq, pyStrip_of_ends '<' '>' _ (by decide) (by decide)]

theorem isNumberedLine_wrapP (m : Str) : isNumberedLine (wrapP m) = false := rfl

theorem formatLine_wrapP (m : Str) : formatLine (wrapP m) = some (wrapP (wrapP m)) := by
  have hb : ((['•']).isPrefixOf (wrapP m) || (['-']).isPrefixOf (wrapP m)) = false := rfl
  have he : (wrapP m).isEmpty = false := rfl
  simp only [formatLine, pyStrip_wrapP, hb, he, isNumberedLine_wrapP,
    Bool.false_eq_true, if_false, Bool.and_false, Bool.not_false, Bool.true_and,
    if_true, Option.some.injEq]
  simp [wrapP]

theorem formatLine_plain {line : Str} (h : plainLine line = true) :
    formatLine line = some (wrapP (pyStrip line)) := by
  simp only [plainLine, Bool.and_eq_true, Bool.not_eq_true'] at h
  obtain ⟨⟨⟨h1, h2⟩, h3⟩, h4⟩ := h
  simp only [formatLine, h1, h2, h3, h4, Bool.or_self, Bool.false_eq_true,
    if_false, Bool.and_false, Bool.not_false, Bool.true_and, if_true,
    Option.some.injEq]
  simp [wrapP]

theorem filterMap_formatLine_plain (ms : List Str)
    (h : ∀ l ∈ ms, plainLine l = true) :
    ms.filterMap formatLine = ms.map fun l => wrapP (pyStrip l) := by
  induction ms with
  | nil => rfl
  | cons a t ih =>
    rw [List.filterMap_cons, formatLine_plain (h a (List.mem_cons_self a t)),
      List.map_cons, ih fun l hl => h l (List.mem_cons_of_mem a hl)]

theorem filterMap_formatLine_wrapped (ms : List Str) :
    (ms.map fun l => wrapP (pyStrip l)).filterMap formatLine =
      ms.map fun l => wrapP (wrapP (pyStrip l)) := by
  induction ms with
  | nil => rfl
  | cons a t ih =>
    rw [List.map_cons, List.filterMap_cons, formatLine_wrapP, List.map_cons, ih]

theorem format_plain_eq (x : Str) (hstar : '*' ∉ x)
    (h : ∀ l ∈ splitNL x, plainLine l = true) :
    format_section_content x = joinNL ((splitNL x).map fun l => wrapP (pyStrip l)) := by
  have hfilter : (x.filter fun c => c != '*') = x := by
    refine List.filter_eq_self.mpr fun a ha => ?_
    rw [bne_iff_ne]
    intro he
    exact hstar (he ▸ ha)
  rw [format_section_content, hfilter, filterMap_formatLine_plain _ h]

theorem joinNL_wrap_length_lt (ms : List Str) (hne : ms ≠ []) :
    (joinNL (ms.map fun l => wrapP (pyStrip l))).length <
      (joinNL (ms.map fun l => wrapP (wrapP (pyStrip l)))).length := by
  induction ms with
  | nil => exact absurd rfl hne
  | cons a t ih =>
    cases t with
    | nil =>
      simp only [List.map_cons, List.map_nil, joinNL, wrapP_length]
      omega
    | cons b t' =>
      have hstep1 : joinNL ((a :: b :: t').map fun l => wrapP (pyStrip l)) =
          wrapP (pyStrip a) ++ '\n' :: joinNL ((b :: t').map fun l => wrapP (pyStrip l)) := rfl
      have hstep2 : joinNL ((a :: b :: t').map fun l => wrapP (wrapP (pyStrip l))) =
          wrapP (wrapP (pyStrip a)) ++
            '\n' :: joinNL ((b :: t').map fun l => wrapP (wrapP (pyStrip l))) := rfl
      rw [hstep1, hstep2]
      simp only [List.length_append, List.length_cons, wrapP_length]
      have := ih (by simp)
      omega

/-- C7 (amended): on input consisting only of plain paragraph lines
(star-free, each line non-blank after trimming, with no bullet prefix
and no leading numbering), one application of the formatter wraps each
trimmed line in a single `<p>...</p>` layer; a second application wraps
each resulting line in a further `<p>...</p>` layer, so the formatter is
not idempotent on plain paragraph text: applying it twice never yields
the same result as applying it once. -/
theorem c7_format_not_idempotent (x : Str) (hstar : '*' ∉ x)
    (h : ∀ l ∈ splitNL x, plainLine l = true) :
    format_section_content x =
      joinNL ((splitNL x).map fun l => wrapP (pyStrip l)) ∧
    format_section_content (format_section_content x) =
      joinNL ((splitNL x).map fun l => wrapP (wrapP (pyStrip l))) ∧
    format_section_content (format_section_content x) ≠
      format_section_content x := by
  have h1 := format_plain_eq x hstar h
  have hysne : (splitNL x).map (fun l => wrapP (pyStrip l)) ≠ [] := by
    simp [splitNL_ne_nil x]
  have hynl : ∀ y ∈ (splitNL x).map (fun l => wrapP (pyStrip l)), '\n' ∉ y := by
    intro y hy
    rw [List.mem_map] at hy
    obtain ⟨l, hl, rfl⟩ := hy
    intro hmem
    simp only [wrapP, List.mem_cons, List.mem_append] at hmem
    rcases hmem with h' | h' | h' | h' | h'
    · exact absurd h' (by decide)
    · exact absurd h' (by decide)
    · exact absurd h' (by decide)
    · exact mem_splitNL_no_newline hl (mem_of_mem_pyStrip h')
    · simp at h'
  have hsplit : splitNL (format_section_content x) =
      (splitNL x).map fun l => wrapP (pyStrip l) := by
    rw [h1]
    exact splitNL_joinNL hysne hynl
  have hstar2 : '*' ∉ format_section_content x := by
    intro hm
    rw [h1] at hm
    rcases mem_joinNL hm with he | ⟨y, hy, hcy⟩
    · exact absurd he (by decide)
    · rw [List.mem_map] at hy
      obtain ⟨l, hl, rfl⟩ := hy
      simp only [wrapP, List.mem_cons, List.mem_append] at hcy
      rcases hcy with h' | h' | h' | h' | h'
      · exact absurd h' (by decide)
      · exact absurd h' (by decide)
      · exact absurd h' (by decide)
      · exact hstar (mem_of_mem_splitNL hl (mem_of_mem_pyStrip h'))
      · simp at h'
  have h2 : format_section_content (format_section_content x) =
      joinNL ((splitNL x).map fun l => wrapP (wrapP (pyStrip l))) := by
    rw [format_section_content]
    have hfil : ((format_section_content x).filter fun c => c != '*') =
        format_section_content x := by
      refine List.filter_eq_self.mpr fun a ha => ?_
      rw [bne_iff_ne]
      intro he
      exact hstar2 (he ▸ ha)
    rw [hfil, hsplit, filterMap_formatLine_wrapped]
  refine ⟨h1, h2, ?_⟩
  intro heq
  have hlt := joinNL_wrap_length_lt (splitNL x) (splitNL_ne_nil x)
  rw [← h1, ← h2, heq] at hlt
  exact lt_irrefl _ hlt

theorem c7_format_not_idempotent_witness :
    format_section_content "Hi.".data =
      joinNL ((splitNL "Hi.".data).map fun l => wrapP (pyStrip l)) ∧
    format_section_content (format_section_content "Hi.".data) =
      joinNL ((splitNL "Hi.".data).map fun l => wrapP (wrapP (pyStrip l))) ∧
    format_section_content (format_section_content "Hi.".data) ≠
      format_section_content "Hi.".data :=
  c7_format_not_idempotent "Hi.".data (by decide) (by decide)

/-- C7 (counterexample): `"Short."` is plain paragraph text (one
non-blank line, no bullet, no numbering, no `*`), yet applying the
formatter twice gives `"<p><p>Short.</p></p>"`, not the single
paragraph wrapping `"<p>Short.</p>"` that one application gives. -/
theorem c7_counterexample :
    ('*' ∉ "Short.".data ∧ ∀ l ∈ splitNL "Short.".data, plainLine l = true) ∧
    format_section_content "Short.".data = "<p>Short.</p>".data ∧
    format_section_content (format_section_content "Short.".data) =
      "<p><p>Short.</p></p>".data ∧
    format_section_content (format_section_content "Short.".data) ≠
      format_section_content "Short.".data :=
  ⟨by decide, rfl, rfl, by decide⟩
